import Mathlib

/-!
Shallow embedding of `src/git.py` (the Mamoni publish helper).

The script drives a fixed sequence of external `git` invocations.  We model
the external world as an `Env`: a function from a command (its argv list) to
the pair (exit status, combined output).  Each step of the script is a Lean
function returning the list of observable events (commands echoed, commands
executed, messages printed) together with either a process exit code or a
value, mirroring `sys.exit` with an `Except`.
-/

namespace Mamoni

/-- The external collaborator: each command maps to (exit status, output). -/
def Env : Type := List String → Nat × String

/-- Observable events of a run: a command echoed (`print("$", ...)`), a
command actually executed as a subprocess, an informational message on
stdout, an error message on stderr. -/
inductive Event where
  | echo (cmd : List String)
  | exec (cmd : List String)
  | info (msg : String)
  | err (msg : String)
  deriving DecidableEq

/-- `REPO_OWNER` constant of src/git.py line 18. -/
def REPO_OWNER : String := "Ravi-Chandra24"

/-- `REPO_NAME` constant of src/git.py line 19. -/
def REPO_NAME : String := "Ask-her-Out"

/-- `FILES` constant of src/git.py line 21. -/
def FILES : List String := ["index.html", "ask_her_out.html", "schedule.html", "git.py"]

/-- `COMMIT_MSG` constant of src/git.py line 22. -/
def COMMIT_MSG : String := "Prepare site for GitHub Pages"

/-- The command run by `inside_git_repo` (src/git.py line 47). -/
def revParseCmd : List String := ["git", "rev-parse", "--is-inside-work-tree"]

/-- The command run by `ensure_origin` to query the remote URL (line 53). -/
def getUrlCmd : List String := ["git", "remote", "get-url", "origin"]

/-- The SSH URL synthesized by `ensure_origin` (src/git.py line 60). -/
def sshUrl : String := "git@github.com:" ++ REPO_OWNER ++ "/" ++ REPO_NAME ++ ".git"

/-- The remote-registration command of `ensure_origin` (src/git.py line 62). -/
def remoteAddCmd : List String := ["git", "remote", "add", "origin", sshUrl]

/-- The staged-changes query (src/git.py line 92). -/
def diffCmd : List String := ["git", "diff", "--cached", "--name-only"]

/-- `git add -A` (src/git.py line 87). -/
def addAllCmd : List String := ["git", "add", "-A"]

/-- `git add <FILES>` (src/git.py line 89). -/
def addFilesCmd : List String := ["git", "add"] ++ FILES

/-- The commit command (src/git.py line 100). -/
def commitCmd (msg : String) : List String := ["git", "commit", "-m", msg]

/-- The push command (src/git.py line 113). -/
def pushCmd (remote branch : String) : List String := ["git", "push", remote, branch]

/-- Python `str.strip()`: the string without leading and trailing
whitespace, written on the character list so that it computes by
structural recursion. -/
def strip (s : String) : String :=
  ⟨((s.data.dropWhile Char.isWhitespace).reverse.dropWhile Char.isWhitespace).reverse⟩

/-- The text of the `subprocess.CalledProcessError` raised by a failing
command (`str(e)` in src/git.py line 38): it names the command (rendered
here by joining the argv with blanks) and the exit status, and contains
none of the command output. -/
def calledProcessErrorStr (cmd : List String) (code : Nat) : String :=
  "Command " ++ String.intercalate " " cmd ++
    " returned non-zero exit status " ++ toString code ++ "."

/-- `run` from src/git.py (lines 25-42) in the `check=True` mode, the only
mode the workflow uses: echo the command, execute it; on success return the
(stripped) captured output when `capture`; on failure print a report to
stderr and exit with the command exit status.  With `capture = true` the
report carries the captured output (`check_output` sets `e.output`);
without it `check_call` captures nothing, `e.output` is `None`, and the
report falls back to the exception text `str(e)`. -/
def run (env : Env) (cmd : List String) (capture : Bool) :
    List Event × Except Nat String :=
  let r := env cmd
  if r.1 = 0 then
    ([Event.echo cmd, Event.exec cmd], Except.ok (if capture then strip r.2 else ""))
  else
    let out := if capture then r.2 else calledProcessErrorStr cmd r.1
    ([Event.echo cmd, Event.exec cmd, Event.err ("Command failed: " ++ out)],
     Except.error r.1)

/-- `inside_git_repo` from src/git.py (lines 45-48): runs `git rev-parse`
directly (no echo, no exit) and reports whether it returned 0. -/
def inside_git_repo (env : Env) : List Event × Bool :=
  ([Event.exec revParseCmd], (env revParseCmd).1 == 0)

/-- `ensure_origin` from src/git.py (lines 51-63): query the URL of the
remote named `origin` directly (no echo, no exit); if the query succeeds,
print the URL; otherwise register `origin` with the synthesized SSH URL via
`run` (which exits on failure). -/
def ensure_origin (env : Env) : List Event × Except Nat Unit :=
  let p := env getUrlCmd
  if p.1 = 0 then
    ([Event.exec getUrlCmd,
      Event.info ("origin remote configured: " ++ strip p.2)], Except.ok ())
  else
    let step := run env remoteAddCmd false
    ([Event.exec getUrlCmd,
      Event.info ("No origin remote found. Adding origin -> " ++ sshUrl)] ++ step.1,
     step.2.map fun _ => ())

/-- The configuration produced by `parse_args` (src/git.py lines 66-75). -/
structure Config where
  message : String
  all : Bool
  noPush : Bool
  remote : String
  branch : String
  dryRun : Bool
  deriving DecidableEq

/-- The argparse defaults of src/git.py lines 69-74. -/
def defaultConfig : Config :=
  { message := COMMIT_MSG, all := false, noPush := false,
    remote := "origin", branch := "main", dryRun := false }

/-- The option loop of the argparse surface declared in `parse_args`
(src/git.py lines 66-75): the six recognized options, each `store_true` or
taking one value; anything else is an argparse usage error, exit status 2. -/
def parse_args_loop : List String → Config → Except Nat Config
  | [], cfg => Except.ok cfg
  | "-m" :: v :: rest, cfg => parse_args_loop rest { cfg with message := v }
  | "--message" :: v :: rest, cfg => parse_args_loop rest { cfg with message := v }
  | "--all" :: rest, cfg => parse_args_loop rest { cfg with all := true }
  | "--no-push" :: rest, cfg => parse_args_loop rest { cfg with noPush := true }
  | "--remote" :: v :: rest, cfg => parse_args_loop rest { cfg with remote := v }
  | "--branch" :: v :: rest, cfg => parse_args_loop rest { cfg with branch := v }
  | "--dry-run" :: rest, cfg => parse_args_loop rest { cfg with dryRun := true }
  | _, _ => Except.error 2

/-- `parse_args` from src/git.py: parse the argument vector against the
declared options, starting from the defaults. -/
def parse_args (argv : List String) : Except Nat Config :=
  parse_args_loop argv defaultConfig

/-- The staging command chosen by `main` (src/git.py lines 86-89). -/
def stageCmd (cfg : Config) : List String :=
  if cfg.all then addAllCmd else addFilesCmd

/-- The body of `main` after the repository check and argument parsing
(src/git.py lines 85-113): stage, query staged changes, maybe commit,
ensure the origin remote, maybe push.  Returns the event trace and the
process exit status (0 when `main` returns normally). -/
def mainWork (env : Env) (cfg : Config) : List Event × Nat :=
  let s1 := run env (stageCmd cfg) false
  match s1.2 with
  | Except.error c => (s1.1, c)
  | Except.ok _ =>
    let s2 := run env diffCmd true
    match s2.2 with
    | Except.error c => (s1.1 ++ s2.1, c)
    | Except.ok staged =>
      let s3 : List Event × Except Nat Unit :=
        if staged = "" then
          ([Event.info "No staged changes to commit."], Except.ok ())
        else
          let pe := [Event.info ("Staged files:\n " ++ staged)]
          if cfg.dryRun then
            (pe ++ [Event.info ("Dry-run: would commit with message:\n " ++ cfg.message)],
             Except.ok ())
          else
            let sc := run env (commitCmd cfg.message) false
            (pe ++ sc.1, sc.2.map fun _ => ())
      match s3.2 with
      | Except.error c => (s1.1 ++ s2.1 ++ s3.1, c)
      | Except.ok _ =>
        let s4 := ensure_origin env
        match s4.2 with
        | Except.error c => (s1.1 ++ s2.1 ++ s3.1 ++ s4.1, c)
        | Except.ok _ =>
          let s5 : List Event × Except Nat Unit :=
            if cfg.noPush then
              ([Event.info "--no-push set: skipping push step."], Except.ok ())
            else
              let pp := [Event.info ("Pushing to " ++ cfg.remote ++ " " ++ cfg.branch ++ "...")]
              if cfg.dryRun then
                (pp ++ [Event.info "Dry-run: would run push command"], Except.ok ())
              else
                let sp := run env (pushCmd cfg.remote cfg.branch) false
                (pp ++ sp.1, sp.2.map fun _ => ())
          match s5.2 with
          | Except.error c => (s1.1 ++ s2.1 ++ s3.1 ++ s4.1 ++ s5.1, c)
          | Except.ok _ => (s1.1 ++ s2.1 ++ s3.1 ++ s4.1 ++ s5.1, 0)

/-- `main` from src/git.py (lines 78-113): repository precondition check
first, then argument parsing (argparse usage errors exit with status 2),
then the publish workflow. -/
def main (env : Env) (argv : List String) : List Event × Nat :=
  let s0 := inside_git_repo env
  if !s0.2 then
    (s0.1 ++
      [Event.info "This directory is not a git repository. Initialize or run from repo root."],
     1)
  else
    match parse_args argv with
    | Except.error c => (s0.1 ++ [Event.err "usage error"], c)
    | Except.ok cfg =>
      let w := mainWork env cfg
      (s0.1 ++ w.1, w.2)

/-- An event is a mutating git invocation: stage, commit, remote-add or
push actually executed. -/
def isMutating : Event → Bool
  | Event.exec ("git" :: "add" :: _) => true
  | Event.exec ("git" :: "commit" :: _) => true
  | Event.exec ("git" :: "remote" :: "add" :: _) => true
  | Event.exec ("git" :: "push" :: _) => true
  | _ => false

/-- An environment in which the working directory is not a git repository:
every command fails with status 1. -/
def envNotRepo : Env := fun _ => (1, "fatal: not a git repository")

/-- An environment in which every command succeeds with empty output (in
particular the staged-changes query reports nothing staged). -/
def envClean : Env := fun _ => (0, "")

/-- An environment in which the remote-URL query fails with status 2 and
every other command succeeds. -/
def envNoRemote : Env := fun cmd =>
  if cmd = getUrlCmd then (2, "error: No such remote") else (0, "out")

/-- An environment in which the push to `origin main` fails with status 128
and the output `fatal: Authentication failed`, and every other command
succeeds with empty output. -/
def envPushFail : Env := fun cmd =>
  if cmd = pushCmd "origin" "main" then (128, "fatal: Authentication failed")
  else (0, "")

/-- The configuration produced by `--remote upstream`. -/
def cfgUpstream : Config := { defaultConfig with remote := "upstream" }

/-- The configuration produced by `--dry-run`. -/
def cfgDryRun : Config := { defaultConfig with dryRun := true }

/-- The configuration produced by `--no-push`. -/
def cfgNoPush : Config := { defaultConfig with noPush := true }

/-- Modelled from the spec (§6 exit codes), amended: the exit status is 0
when every invoked external command other than the remote-URL query
succeeds, and otherwise the exit status of the first failing command among
staging, the staged-changes query, commit, remote registration and push,
in workflow order. -/
def specExitCode (env : Env) (cfg : Config) : Nat :=
  if (env (stageCmd cfg)).1 ≠ 0 then (env (stageCmd cfg)).1
  else if (env diffCmd).1 ≠ 0 then (env diffCmd).1
  else if strip (env diffCmd).2 ≠ "" ∧ cfg.dryRun = false ∧
      (env (commitCmd cfg.message)).1 ≠ 0 then (env (commitCmd cfg.message)).1
  else if (env getUrlCmd).1 ≠ 0 ∧ (env remoteAddCmd).1 ≠ 0 then (env remoteAddCmd).1
  else if cfg.noPush = false ∧ cfg.dryRun = false ∧
      (env (pushCmd cfg.remote cfg.branch)).1 ≠ 0 then (env (pushCmd cfg.remote cfg.branch)).1
  else 0

/-- The trace contains an error report (a stderr message). -/
def hasErr (t : List Event) : Bool :=
  t.any fun e => match e with
    | Event.err _ => true
    | _ => false

/-- The two commands the script runs directly through `subprocess.run`
(src/git.py lines 47 and 53), with no echo: the repository check and the
remote-URL query. -/
def direct (c : List String) : Bool := c == revParseCmd || c == getUrlCmd

/-- Echo discipline of a trace: every executed command is either one of the
two direct queries or immediately preceded by its own echo. -/
def echoed : List Event → Bool
  | [] => true
  | Event.echo c :: Event.exec c2 :: rest => (c == c2) && echoed rest
  | Event.exec c :: rest => direct c && echoed rest
  | _ :: rest => echoed rest

/-- C1: if the repository check fails, the run exits with status 1 and no
mutating command (stage, commit, remote-add, push) is executed, whatever
the argument vector. -/
theorem not_a_repo_no_mutation (env : Env) (argv : List String)
    (h : (env revParseCmd).1 ≠ 0) :
    (Mamoni.main env argv).2 = 1 ∧
      ∀ e ∈ (Mamoni.main env argv).1, isMutating e = false := by
  have hb : ((env revParseCmd).1 == 0) = false := by simpa using h
  constructor
  · simp [Mamoni.main, inside_git_repo, hb]
  · simp [Mamoni.main, inside_git_repo, hb, isMutating]
    decide

/-- Witness for C1 at a concrete failing environment and argument vector. -/
theorem not_a_repo_no_mutation_witness :
    (Mamoni.main envNotRepo ["--bogus"]).2 = 1 ∧
      ∀ e ∈ (Mamoni.main envNotRepo ["--bogus"]).1, isMutating e = false :=
  not_a_repo_no_mutation envNotRepo ["--bogus"] (by decide)

/-- C9: the repository check runs before argument parsing, so outside a
repository the exit status is 1 for every argument vector, even one the
argument surface rejects. -/
theorem repo_check_before_parsing (env : Env) (argv : List String)
    (h : (env revParseCmd).1 ≠ 0) :
    (Mamoni.main env argv).2 = 1 := by
  have hb : ((env revParseCmd).1 == 0) = false := by simpa using h
  simp [Mamoni.main, inside_git_repo, hb]

/-- Witness for C9: `--bogus` is a parse error (argparse would exit 2), yet
outside a repository the exit status is still 1. -/
theorem repo_check_before_parsing_witness :
    parse_args ["--bogus"] = Except.error 2 ∧
      (Mamoni.main envNotRepo ["--bogus"]).2 = 1 :=
  ⟨rfl, repo_check_before_parsing envNotRepo ["--bogus"] (by decide)⟩

/-- C10: a failing remote-URL query is never fatal: it always selects the
registration branch, and `ensure_origin` can only produce an exit through a
failure of the registration command itself (with that command's status). -/
theorem get_url_failure_never_fatal (env : Env) :
    ((env getUrlCmd).1 ≠ 0 → Event.exec remoteAddCmd ∈ (ensure_origin env).1) ∧
      ∀ c, (ensure_origin env).2 = Except.error c →
        (env getUrlCmd).1 ≠ 0 ∧ c = (env remoteAddCmd).1 ∧ (env remoteAddCmd).1 ≠ 0 := by
  by_cases h : (env getUrlCmd).1 = 0 <;>
    by_cases h2 : (env remoteAddCmd).1 = 0 <;>
      simp [ensure_origin, run, h, h2, Except.map]

/-- Witness for C10 at a concrete environment whose remote-URL query fails. -/
theorem get_url_failure_never_fatal_witness :
    ((envNoRemote getUrlCmd).1 ≠ 0 →
      Event.exec remoteAddCmd ∈ (ensure_origin envNoRemote).1) ∧
      ∀ c, (ensure_origin envNoRemote).2 = Except.error c →
        (envNoRemote getUrlCmd).1 ≠ 0 ∧ c = (envNoRemote remoteAddCmd).1 ∧
          (envNoRemote remoteAddCmd).1 ≠ 0 :=
  get_url_failure_never_fatal envNoRemote

/-- C2 counterexample: with `--remote upstream`, the ensure-remote step still
queries and registers the remote named `origin`, never `upstream`. -/
theorem remote_flag_ignored_counterexample :
    parse_args ["--remote", "upstream"] = Except.ok cfgUpstream ∧
      Event.exec getUrlCmd ∈ (mainWork envNoRemote cfgUpstream).1 ∧
      Event.exec ["git", "remote", "get-url", "upstream"] ∉
        (mainWork envNoRemote cfgUpstream).1 ∧
      Event.exec remoteAddCmd ∈ (mainWork envNoRemote cfgUpstream).1 ∧
      Event.exec ["git", "remote", "add", "upstream", sshUrl] ∉
        (mainWork envNoRemote cfgUpstream).1 := by
  refine ⟨rfl, ?_, ?_, ?_, ?_⟩ <;> decide

/-- C2 amended: the ensure-remote step always queries the fixed remote name
`origin` (the `--remote` option does not affect it); when the query succeeds
no remote-registration command is invoked and the URL is reported; when it
fails, a remote named `origin` is registered with the synthesized URL
`git@github.com:Ravi-Chandra24/Ask-her-Out.git`. -/
theorem ensure_origin_uses_fixed_name (env : Env) :
    sshUrl = "git@github.com:Ravi-Chandra24/Ask-her-Out.git" ∧
      Event.exec getUrlCmd ∈ (ensure_origin env).1 ∧
      ((env getUrlCmd).1 = 0 →
        (∀ c, Event.exec c ∈ (ensure_origin env).1 → c = getUrlCmd) ∧
          Event.info ("origin remote configured: " ++ strip (env getUrlCmd).2) ∈
            (ensure_origin env).1 ∧
          (ensure_origin env).2 = Except.ok ()) ∧
      ((env getUrlCmd).1 ≠ 0 →
        Event.exec remoteAddCmd ∈ (ensure_origin env).1 ∧
          Event.info ("No origin remote found. Adding origin -> " ++ sshUrl) ∈
            (ensure_origin env).1) := by
  refine ⟨by decide, ?_, ?_, ?_⟩ <;>
    by_cases h : (env getUrlCmd).1 = 0 <;>
      by_cases h2 : (env remoteAddCmd).1 = 0 <;>
        simp [ensure_origin, run, h, h2, Except.map]

theorem hasErr_append (a b : List Event) :
    hasErr (a ++ b) = (hasErr a || hasErr b) := by
  simp [hasErr, List.any_append]

@[simp] theorem except_map_error {α β : Type} (f : α → β) (e : Nat) :
    Except.map f (Except.error e : Except Nat α) = Except.error e := rfl

@[simp] theorem except_map_ok {α β : Type} (f : α → β) (a : α) :
    Except.map f (Except.ok a : Except Nat α) = Except.ok (f a) := rfl

set_option maxHeartbeats 1600000 in
theorem mainWork_err_of_fail (env : Env) (cfg : Config)
    (hne : specExitCode env cfg ≠ 0) : hasErr (mainWork env cfg).1 = true := by
  by_cases h1 : (env (stageCmd cfg)).1 = 0
  case neg => simp [mainWork, run, hasErr, h1]
  by_cases h2 : (env diffCmd).1 = 0
  case neg => simp [mainWork, run, hasErr, hasErr_append, h1, h2]
  by_cases hc : strip (env diffCmd).2 ≠ "" ∧ cfg.dryRun = false ∧
      (env (commitCmd cfg.message)).1 ≠ 0
  · obtain ⟨hs, hd, h3⟩ := hc
    simp [mainWork, run, hasErr, hasErr_append, h1, h2, hs, hd, h3]
  by_cases hr : (env getUrlCmd).1 ≠ 0 ∧ (env remoteAddCmd).1 ≠ 0
  · obtain ⟨h4, h5⟩ := hr
    by_cases hs : strip (env diffCmd).2 = "" <;>
    cases hd : cfg.dryRun <;>
    by_cases h3 : (env (commitCmd cfg.message)).1 = 0 <;>
    simp [mainWork, run, ensure_origin, Except.map, hasErr, hasErr_append,
      h1, h2, hs, hd, h3, h4, h5]
  have h6 : cfg.noPush = false ∧ cfg.dryRun = false ∧
      (env (pushCmd cfg.remote cfg.branch)).1 ≠ 0 := by
    by_contra h6
    exact hne (by simp [specExitCode, h1, h2, hc, hr, h6])
  obtain ⟨hn, hd, h6⟩ := h6
  by_cases hs : strip (env diffCmd).2 = "" <;>
  by_cases h3 : (env (commitCmd cfg.message)).1 = 0 <;>
  by_cases h4 : (env getUrlCmd).1 = 0 <;>
  by_cases h5 : (env remoteAddCmd).1 = 0 <;>
  simp [mainWork, run, ensure_origin, Except.map, hasErr, hasErr_append,
    h1, h2, hs, hd, hn, h3, h4, h5, h6]

theorem mainWork_exit_eq_spec (env : Env) (cfg : Config) :
    (mainWork env cfg).2 = specExitCode env cfg := by
  by_cases h1 : (env (stageCmd cfg)).1 = 0 <;>
  by_cases h2 : (env diffCmd).1 = 0 <;>
  by_cases hs : strip (env diffCmd).2 = "" <;>
  by_cases h3 : (env (commitCmd cfg.message)).1 = 0 <;>
  by_cases h4 : (env getUrlCmd).1 = 0 <;>
  by_cases h5 : (env remoteAddCmd).1 = 0 <;>
  by_cases h6 : (env (pushCmd cfg.remote cfg.branch)).1 = 0 <;>
  cases hd : cfg.dryRun <;>
  cases hn : cfg.noPush <;>
  simp [mainWork, run, ensure_origin, specExitCode, Except.map,
    h1, h2, hs, h3, h4, h5, h6, hd, hn]

/-- C3 counterexample, in two parts.  First, with all commands succeeding
except the remote-URL query (status 2), the process exits 0 even though an
invoked external command failed inside a repository; the claim as stated
would require exit status 2.  Second, when the push fails with status 128
and output `fatal: Authentication failed`, the run exits 128 but the
failure is not reported with the captured output: the only error report is
the exception text naming the command and status (`check_call` captures
nothing), and no report carrying the output appears. -/
theorem exit_status_rule_counterexample :
    ((envNoRemote revParseCmd).1 = 0 ∧
      (envNoRemote getUrlCmd).1 = 2 ∧
      Event.exec getUrlCmd ∈ (Mamoni.main envNoRemote []).1 ∧
      (Mamoni.main envNoRemote []).2 = 0) ∧
    ((envPushFail (pushCmd "origin" "main")).2 = "fatal: Authentication failed" ∧
      (Mamoni.main envPushFail []).2 = 128 ∧
      Event.err ("Command failed: " ++ (envPushFail (pushCmd "origin" "main")).2) ∉
        (Mamoni.main envPushFail []).1 ∧
      ((Mamoni.main envPushFail []).1.all fun e =>
        match e with
        | Event.err m =>
          m == "Command failed: " ++ calledProcessErrorStr (pushCmd "origin" "main") 128
        | _ => true) = true) := by
  refine ⟨⟨?_, ?_, ?_, ?_⟩, ⟨?_, ?_, ?_, ?_⟩⟩ <;> decide

/-- C3 amended: the exit status is 0 when every invoked command other than
the remote-URL query succeeds, 1 when not inside a repository, and
otherwise the exit status of the first failing command among staging,
staged-changes query, commit, remote registration and push; no further
workflow command is invoked after that failure, and it is reported: a
failing staged-changes query with its captured output, a failing staging,
commit, remote-registration or push command with the exception text naming
the command and status (their output is not captured). -/
theorem exit_status_rule (env : Env) (cfg : Config) :
    (mainWork env cfg).2 = specExitCode env cfg ∧
      (∀ argv, (env revParseCmd).1 ≠ 0 → (Mamoni.main env argv).2 = 1) ∧
      (∀ argv, (env revParseCmd).1 = 0 → parse_args argv = Except.ok cfg →
        (Mamoni.main env argv).2 = (mainWork env cfg).2) ∧
      (specExitCode env cfg ≠ 0 → hasErr (mainWork env cfg).1 = true) ∧
      ((env (stageCmd cfg)).1 ≠ 0 →
        Event.err ("Command failed: " ++
            calledProcessErrorStr (stageCmd cfg) (env (stageCmd cfg)).1) ∈
          (mainWork env cfg).1 ∧
        ∀ c, Event.exec c ∈ (mainWork env cfg).1 → c = stageCmd cfg) ∧
      ((env (stageCmd cfg)).1 = 0 → (env diffCmd).1 ≠ 0 →
        Event.err ("Command failed: " ++ (env diffCmd).2) ∈ (mainWork env cfg).1 ∧
        ∀ c, Event.exec c ∈ (mainWork env cfg).1 → c = stageCmd cfg ∨ c = diffCmd) ∧
      ((env (stageCmd cfg)).1 = 0 → (env diffCmd).1 = 0 → strip (env diffCmd).2 ≠ "" →
        cfg.dryRun = false → (env (commitCmd cfg.message)).1 ≠ 0 →
        Event.err ("Command failed: " ++
            calledProcessErrorStr (commitCmd cfg.message) (env (commitCmd cfg.message)).1) ∈
          (mainWork env cfg).1 ∧
        ∀ c, Event.exec c ∈ (mainWork env cfg).1 →
          c = stageCmd cfg ∨ c = diffCmd ∨ c = commitCmd cfg.message) ∧
      ((env (stageCmd cfg)).1 = 0 → (env diffCmd).1 = 0 → (env getUrlCmd).1 ≠ 0 →
        (env remoteAddCmd).1 ≠ 0 →
        ∀ c, Event.exec c ∈ (mainWork env cfg).1 →
          c = stageCmd cfg ∨ c = diffCmd ∨ c = commitCmd cfg.message ∨
            c = getUrlCmd ∨ c = remoteAddCmd) ∧
      ((env (stageCmd cfg)).1 = 0 → (env diffCmd).1 = 0 →
        (strip (env diffCmd).2 = "" ∨ cfg.dryRun = true ∨
          (env (commitCmd cfg.message)).1 = 0) →
        (env getUrlCmd).1 ≠ 0 → (env remoteAddCmd).1 ≠ 0 →
        Event.err ("Command failed: " ++
            calledProcessErrorStr remoteAddCmd (env remoteAddCmd).1) ∈
          (mainWork env cfg).1) ∧
      ((env (stageCmd cfg)).1 = 0 → (env diffCmd).1 = 0 →
        (strip (env diffCmd).2 = "" ∨ cfg.dryRun = true ∨
          (env (commitCmd cfg.message)).1 = 0) →
        ((env getUrlCmd).1 = 0 ∨ (env remoteAddCmd).1 = 0) →
        cfg.noPush = false → cfg.dryRun = false →
        (env (pushCmd cfg.remote cfg.branch)).1 ≠ 0 →
        Event.err ("Command failed: " ++
            calledProcessErrorStr (pushCmd cfg.remote cfg.branch)
              (env (pushCmd cfg.remote cfg.branch)).1) ∈
          (mainWork env cfg).1) := by
  refine ⟨mainWork_exit_eq_spec env cfg, ?_, ?_, mainWork_err_of_fail env cfg,
    ?_, ?_, ?_, ?_, ?_, ?_⟩
  · intro argv h
    have hb : ((env revParseCmd).1 == 0) = false := by simpa using h
    simp [Mamoni.main, inside_git_repo, hb]
  · intro argv h hp
    have hb : ((env revParseCmd).1 == 0) = true := by simpa using h
    simp [Mamoni.main, inside_git_repo, hb, hp]
  · intro h1
    refine ⟨by simp [mainWork, run, h1], ?_⟩
    intro c hc
    simp [mainWork, run, h1] at hc
    exact hc
  · intro h1 h2
    refine ⟨by simp [mainWork, run, h1, h2], ?_⟩
    intro c hc
    simp [mainWork, run, h1, h2] at hc
    tauto
  · intro h1 h2 hs hd h3
    refine ⟨by simp [mainWork, run, h1, h2, hs, hd, h3], ?_⟩
    intro c hc
    simp [mainWork, run, h1, h2, hs, hd, h3] at hc
    tauto
  · intro h1 h2 h4 h5 c hc
    by_cases hs : strip (env diffCmd).2 = "" <;>
    cases hd : cfg.dryRun <;>
    by_cases h3 : (env (commitCmd cfg.message)).1 = 0 <;>
    simp [mainWork, run, ensure_origin, Except.map,
      h1, h2, hs, hd, h3, h4, h5] at hc <;>
    tauto
  · intro h1 h2 hcp h4 h5
    by_cases hs : strip (env diffCmd).2 = ""
    · simp [mainWork, run, ensure_origin, h1, h2, hs, h4, h5]
    · cases hd : cfg.dryRun
      · have h3 : (env (commitCmd cfg.message)).1 = 0 := by
          rcases hcp with h | h | h
          · exact absurd h hs
          · rw [hd] at h; exact absurd h (by simp)
          · exact h
        simp [mainWork, run, ensure_origin, h1, h2, hs, hd, h3, h4, h5]
      · simp [mainWork, run, ensure_origin, h1, h2, hs, hd, h4, h5]
  · intro h1 h2 hcp hr hn hd h6
    rw [hd] at hcp
    simp only [Bool.false_eq_true, false_or] at hcp
    by_cases hs : strip (env diffCmd).2 = "" <;>
    by_cases h3 : (env (commitCmd cfg.message)).1 = 0 <;>
    by_cases h4 : (env getUrlCmd).1 = 0 <;>
    by_cases h5 : (env remoteAddCmd).1 = 0 <;>
    simp [mainWork, run, ensure_origin, h1, h2, hs, hd, h3, h4, h5, hn, h6] <;>
    tauto

theorem commitCmd_ne_stageCmd (m : String) (cfg : Config) :
    commitCmd m ≠ stageCmd cfg := by
  unfold commitCmd stageCmd addAllCmd addFilesCmd FILES
  split <;> simp

theorem pushCmd_ne_stageCmd (r b : String) (cfg : Config) :
    pushCmd r b ≠ stageCmd cfg := by
  unfold pushCmd stageCmd addAllCmd addFilesCmd FILES
  split <;> simp

theorem commitCmd_ne_diffCmd (m : String) : commitCmd m ≠ diffCmd := by
  simp [commitCmd, diffCmd]

theorem commitCmd_ne_getUrlCmd (m : String) : commitCmd m ≠ getUrlCmd := by
  simp [commitCmd, getUrlCmd]

theorem commitCmd_ne_remoteAddCmd (m : String) : commitCmd m ≠ remoteAddCmd := by
  simp [commitCmd, remoteAddCmd]

theorem commitCmd_ne_pushCmd (m r b : String) : commitCmd m ≠ pushCmd r b := by
  simp [commitCmd, pushCmd]

theorem pushCmd_ne_diffCmd (r b : String) : pushCmd r b ≠ diffCmd := by
  simp [pushCmd, diffCmd]

theorem pushCmd_ne_getUrlCmd (r b : String) : pushCmd r b ≠ getUrlCmd := by
  simp [pushCmd, getUrlCmd]

theorem pushCmd_ne_remoteAddCmd (r b : String) : pushCmd r b ≠ remoteAddCmd := by
  simp [pushCmd, remoteAddCmd]

theorem pushCmd_ne_commitCmd (r b m : String) : pushCmd r b ≠ commitCmd m := by
  simp [pushCmd, commitCmd]

theorem commitCmd_inj (m m' : String) : commitCmd m = commitCmd m' ↔ m = m' := by
  simp [commitCmd]

set_option maxHeartbeats 1600000

/-- C4: with `--dry-run`, no commit command and no push command is ever
executed, for every staged-changes result and remote state, while the
staging command still executes and, when the remote is absent (and the
steps before it succeeded), the remote-registration command still
executes. -/
theorem dry_run_skips_commit_and_push (env : Env) (cfg : Config)
    (h : cfg.dryRun = true) :
    (∀ m, Event.exec (commitCmd m) ∉ (mainWork env cfg).1) ∧
      (∀ r b, Event.exec (pushCmd r b) ∉ (mainWork env cfg).1) ∧
      Event.exec (stageCmd cfg) ∈ (mainWork env cfg).1 ∧
      ((env (stageCmd cfg)).1 = 0 → (env diffCmd).1 = 0 → (env getUrlCmd).1 ≠ 0 →
        Event.exec remoteAddCmd ∈ (mainWork env cfg).1) := by
  by_cases h1 : (env (stageCmd cfg)).1 = 0 <;>
  by_cases h2 : (env diffCmd).1 = 0 <;>
  by_cases hs : strip (env diffCmd).2 = "" <;>
  by_cases h4 : (env getUrlCmd).1 = 0 <;>
  by_cases h5 : (env remoteAddCmd).1 = 0 <;>
  cases hn : cfg.noPush <;>
  simp [mainWork, run, ensure_origin,
    commitCmd_ne_stageCmd, pushCmd_ne_stageCmd, commitCmd_ne_diffCmd,
    commitCmd_ne_getUrlCmd, commitCmd_ne_remoteAddCmd, pushCmd_ne_diffCmd,
    pushCmd_ne_getUrlCmd, pushCmd_ne_remoteAddCmd,
    h, h1, h2, hs, h4, h5, hn]

/-- Witness for C4: dry run with an absent remote; staging and registration
run, commit and push do not. -/
theorem dry_run_skips_commit_and_push_witness :
    (∀ m, Event.exec (commitCmd m) ∉ (mainWork envNoRemote cfgDryRun).1) ∧
      (∀ r b, Event.exec (pushCmd r b) ∉ (mainWork envNoRemote cfgDryRun).1) ∧
      Event.exec (stageCmd cfgDryRun) ∈ (mainWork envNoRemote cfgDryRun).1 ∧
      ((envNoRemote (stageCmd cfgDryRun)).1 = 0 → (envNoRemote diffCmd).1 = 0 →
        (envNoRemote getUrlCmd).1 ≠ 0 →
        Event.exec remoteAddCmd ∈ (mainWork envNoRemote cfgDryRun).1) :=
  dry_run_skips_commit_and_push envNoRemote cfgDryRun rfl

/-- C5: when the staged-changes query (after a successful staging) returns
an empty result, no commit command is invoked, an informational message is
printed, the ensure-remote step still runs, the push step is still entered
(and, outside dry-run, the push command invoked) unless `--no-push` was
given, and the run exits 0 when the remaining commands succeed. -/
theorem empty_staged_skips_commit (env : Env) (cfg : Config)
    (h1 : (env (stageCmd cfg)).1 = 0) (h2 : (env diffCmd).1 = 0)
    (hs : strip (env diffCmd).2 = "") :
    (∀ m, Event.exec (commitCmd m) ∉ (mainWork env cfg).1) ∧
      Event.info "No staged changes to commit." ∈ (mainWork env cfg).1 ∧
      Event.exec getUrlCmd ∈ (mainWork env cfg).1 ∧
      (((env getUrlCmd).1 = 0 ∨ (env remoteAddCmd).1 = 0) → cfg.noPush = false →
        Event.info ("Pushing to " ++ cfg.remote ++ " " ++ cfg.branch ++ "...") ∈
          (mainWork env cfg).1) ∧
      (((env getUrlCmd).1 = 0 ∨ (env remoteAddCmd).1 = 0) → cfg.noPush = false →
        cfg.dryRun = false →
        Event.exec (pushCmd cfg.remote cfg.branch) ∈ (mainWork env cfg).1) ∧
      (((env getUrlCmd).1 = 0 ∨ (env remoteAddCmd).1 = 0) →
        (cfg.noPush = true ∨ cfg.dryRun = true ∨
          (env (pushCmd cfg.remote cfg.branch)).1 = 0) →
        (mainWork env cfg).2 = 0) := by
  cases hd : cfg.dryRun <;>
  by_cases h4 : (env getUrlCmd).1 = 0 <;>
  by_cases h5 : (env remoteAddCmd).1 = 0 <;>
  cases hn : cfg.noPush <;>
  by_cases h6 : (env (pushCmd cfg.remote cfg.branch)).1 = 0 <;>
  simp [mainWork, run, ensure_origin,
    commitCmd_ne_stageCmd, commitCmd_ne_diffCmd, commitCmd_ne_getUrlCmd,
    commitCmd_ne_remoteAddCmd, commitCmd_ne_pushCmd,
    hd, h1, h2, hs, h4, h5, hn, h6]

/-- Witness for C5 at a clean environment (everything succeeds, nothing
staged) with the default configuration. -/
theorem empty_staged_skips_commit_witness :
    (∀ m, Event.exec (commitCmd m) ∉ (mainWork envClean defaultConfig).1) ∧
      Event.info "No staged changes to commit." ∈ (mainWork envClean defaultConfig).1 ∧
      Event.exec getUrlCmd ∈ (mainWork envClean defaultConfig).1 ∧
      (((envClean getUrlCmd).1 = 0 ∨ (envClean remoteAddCmd).1 = 0) →
        defaultConfig.noPush = false →
        Event.info ("Pushing to " ++ defaultConfig.remote ++ " " ++
            defaultConfig.branch ++ "...") ∈ (mainWork envClean defaultConfig).1) ∧
      (((envClean getUrlCmd).1 = 0 ∨ (envClean remoteAddCmd).1 = 0) →
        defaultConfig.noPush = false → defaultConfig.dryRun = false →
        Event.exec (pushCmd defaultConfig.remote defaultConfig.branch) ∈
          (mainWork envClean defaultConfig).1) ∧
      (((envClean getUrlCmd).1 = 0 ∨ (envClean remoteAddCmd).1 = 0) →
        (defaultConfig.noPush = true ∨ defaultConfig.dryRun = true ∨
          (envClean (pushCmd defaultConfig.remote defaultConfig.branch)).1 = 0) →
        (mainWork envClean defaultConfig).2 = 0) :=
  empty_staged_skips_commit envClean defaultConfig rfl rfl (by decide)

/-- C7: with `--no-push`, no push command is invoked, and when every prior
step succeeded the run still exits with status 0. -/
theorem no_push_skips_push (env : Env) (cfg : Config)
    (h : cfg.noPush = true) :
    (∀ r b, Event.exec (pushCmd r b) ∉ (mainWork env cfg).1) ∧
      ((env (stageCmd cfg)).1 = 0 → (env diffCmd).1 = 0 →
        (strip (env diffCmd).2 = "" ∨ cfg.dryRun = true ∨
          (env (commitCmd cfg.message)).1 = 0) →
        ((env getUrlCmd).1 = 0 ∨ (env remoteAddCmd).1 = 0) →
        (mainWork env cfg).2 = 0) := by
  by_cases h1 : (env (stageCmd cfg)).1 = 0 <;>
  by_cases h2 : (env diffCmd).1 = 0 <;>
  by_cases hs : strip (env diffCmd).2 = "" <;>
  cases hd : cfg.dryRun <;>
  by_cases h3 : (env (commitCmd cfg.message)).1 = 0 <;>
  by_cases h4 : (env getUrlCmd).1 = 0 <;>
  by_cases h5 : (env remoteAddCmd).1 = 0 <;>
  simp [mainWork, run, ensure_origin,
    pushCmd_ne_stageCmd, pushCmd_ne_diffCmd, pushCmd_ne_getUrlCmd,
    pushCmd_ne_remoteAddCmd, pushCmd_ne_commitCmd,
    h, h1, h2, hs, hd, h3, h4, h5]

/-- Witness for C7 at a clean environment with `--no-push`. -/
theorem no_push_skips_push_witness :
    (∀ r b, Event.exec (pushCmd r b) ∉ (mainWork envClean cfgNoPush).1) ∧
      ((envClean (stageCmd cfgNoPush)).1 = 0 → (envClean diffCmd).1 = 0 →
        (strip (envClean diffCmd).2 = "" ∨ cfgNoPush.dryRun = true ∨
          (envClean (commitCmd cfgNoPush.message)).1 = 0) →
        ((envClean getUrlCmd).1 = 0 ∨ (envClean remoteAddCmd).1 = 0) →
        (mainWork envClean cfgNoPush).2 = 0) :=
  no_push_skips_push envClean cfgNoPush rfl

/-- C8: staging uses the fixed file list without `--all` and `git add -A`
with it; every commit invocation carries the configured message, whose
default is the fixed publish message. -/
theorem staging_and_commit_message (env : Env) (cfg : Config) :
    FILES = ["index.html", "ask_her_out.html", "schedule.html", "git.py"] ∧
      COMMIT_MSG = "Prepare site for GitHub Pages" ∧
      parse_args [] = Except.ok defaultConfig ∧
      defaultConfig.message = COMMIT_MSG ∧
      (cfg.all = false → stageCmd cfg = ["git", "add"] ++ FILES) ∧
      (cfg.all = true → stageCmd cfg = ["git", "add", "-A"]) ∧
      Event.exec (stageCmd cfg) ∈ (mainWork env cfg).1 ∧
      (∀ m, Event.exec (commitCmd m) ∈ (mainWork env cfg).1 → m = cfg.message) := by
  refine ⟨rfl, rfl, rfl, rfl,
    fun h => by simp [stageCmd, h, addFilesCmd],
    fun h => by simp [stageCmd, h, addAllCmd], ?_⟩
  by_cases h1 : (env (stageCmd cfg)).1 = 0 <;>
  by_cases h2 : (env diffCmd).1 = 0 <;>
  by_cases hs : strip (env diffCmd).2 = "" <;>
  cases hd : cfg.dryRun <;>
  by_cases h3 : (env (commitCmd cfg.message)).1 = 0 <;>
  by_cases h4 : (env getUrlCmd).1 = 0 <;>
  by_cases h5 : (env remoteAddCmd).1 = 0 <;>
  cases hn : cfg.noPush <;>
  by_cases h6 : (env (pushCmd cfg.remote cfg.branch)).1 = 0 <;>
  simp [mainWork, run, ensure_origin,
    commitCmd_ne_stageCmd, commitCmd_ne_diffCmd, commitCmd_ne_getUrlCmd,
    commitCmd_ne_remoteAddCmd, commitCmd_ne_pushCmd, commitCmd_inj,
    h1, h2, hs, hd, h3, h4, h5, hn, h6]

theorem direct_revParse : direct revParseCmd = true := by decide

theorem direct_getUrl : direct getUrlCmd = true := by decide

theorem revParseCmd_ne_stageCmd (cfg : Config) : revParseCmd ≠ stageCmd cfg := by
  unfold revParseCmd stageCmd addAllCmd addFilesCmd FILES
  split <;> simp

theorem revParseCmd_ne_diffCmd : revParseCmd ≠ diffCmd := by
  simp [revParseCmd, diffCmd]

theorem revParseCmd_ne_commitCmd (m : String) : revParseCmd ≠ commitCmd m := by
  simp [revParseCmd, commitCmd]

theorem revParseCmd_ne_remoteAddCmd : revParseCmd ≠ remoteAddCmd := by
  simp [revParseCmd, remoteAddCmd]

theorem revParseCmd_ne_pushCmd (r b : String) : revParseCmd ≠ pushCmd r b := by
  simp [revParseCmd, pushCmd]

theorem getUrlCmd_ne_stageCmd (cfg : Config) : getUrlCmd ≠ stageCmd cfg := by
  unfold getUrlCmd stageCmd addAllCmd addFilesCmd FILES
  split <;> simp

theorem getUrlCmd_ne_diffCmd : getUrlCmd ≠ diffCmd := by
  simp [getUrlCmd, diffCmd]

theorem getUrlCmd_ne_commitCmd (m : String) : getUrlCmd ≠ commitCmd m := by
  simp [getUrlCmd, commitCmd]

theorem getUrlCmd_ne_remoteAddCmd : getUrlCmd ≠ remoteAddCmd := by
  simp [getUrlCmd, remoteAddCmd]

theorem getUrlCmd_ne_pushCmd (r b : String) : getUrlCmd ≠ pushCmd r b := by
  simp [getUrlCmd, pushCmd]

theorem mainWork_echo_discipline (env : Env) (cfg : Config) :
    echoed (mainWork env cfg).1 = true ∧
      Event.echo revParseCmd ∉ (mainWork env cfg).1 ∧
      Event.echo getUrlCmd ∉ (mainWork env cfg).1 := by
  by_cases h1 : (env (stageCmd cfg)).1 = 0 <;>
  by_cases h2 : (env diffCmd).1 = 0 <;>
  by_cases hs : strip (env diffCmd).2 = "" <;>
  cases hd : cfg.dryRun <;>
  by_cases h3 : (env (commitCmd cfg.message)).1 = 0 <;>
  by_cases h4 : (env getUrlCmd).1 = 0 <;>
  by_cases h5 : (env remoteAddCmd).1 = 0 <;>
  cases hn : cfg.noPush <;>
  by_cases h6 : (env (pushCmd cfg.remote cfg.branch)).1 = 0 <;>
  simp [mainWork, run, ensure_origin, echoed, direct_getUrl,
    revParseCmd_ne_stageCmd, revParseCmd_ne_diffCmd, revParseCmd_ne_commitCmd,
    revParseCmd_ne_remoteAddCmd, revParseCmd_ne_pushCmd,
    getUrlCmd_ne_stageCmd, getUrlCmd_ne_diffCmd, getUrlCmd_ne_commitCmd,
    getUrlCmd_ne_remoteAddCmd, getUrlCmd_ne_pushCmd,
    h1, h2, hs, hd, h3, h4, h5, hn, h6]

/-- C6 counterexample: in a run where every command succeeds, the
repository check and the remote-URL query are executed but never echoed. -/
theorem echo_before_execution_counterexample :
    Event.exec revParseCmd ∈ (Mamoni.main envClean []).1 ∧
      Event.echo revParseCmd ∉ (Mamoni.main envClean []).1 ∧
      Event.exec getUrlCmd ∈ (Mamoni.main envClean []).1 ∧
      Event.echo getUrlCmd ∉ (Mamoni.main envClean []).1 := by
  refine ⟨?_, ?_, ?_, ?_⟩ <;> decide

/-- C6 amended: every command invoked through the `run` helper (staging,
staged-changes query, commit, remote registration, push) is echoed to
standard output immediately before it executes; the repository check and
the remote-URL query are executed directly and never echoed. -/
theorem echo_before_execution (env : Env) (argv : List String) :
    echoed (Mamoni.main env argv).1 = true ∧
      Event.echo revParseCmd ∉ (Mamoni.main env argv).1 ∧
      Event.echo getUrlCmd ∉ (Mamoni.main env argv).1 := by
  cases hb : (env revParseCmd).1 == 0
  · simp [Mamoni.main, inside_git_repo, hb, echoed, direct_revParse]
  · cases hp : parse_args argv with
    | error c =>
      simp [Mamoni.main, inside_git_repo, hb, hp, echoed, direct_revParse]
    | ok cfg =>
      have hw := mainWork_echo_discipline env cfg
      simp [Mamoni.main, inside_git_repo, hb, hp, echoed, direct_revParse,
        hw.1, hw.2.1, hw.2.2]

end Mamoni
